import Mathlib

/-!
Verification of the business-intelligence dashboard pipeline (`src/app.py`).

Shallow embedding:
* a pandas DataFrame of order rows is a `List Order`;
* pandas timestamps are minutes since an epoch (`Nat`); `pd.to_datetime`
  of a calendar-date string yields midnight of that day, i.e. `day * 1440`;
  the `.dt.date` accessor is integer division by `1440`;
* monetary values and rates are exact rationals (`ℚ`);
* `NaN` / `NaT` produced by `errors='coerce'` parsing is `Option.none`;
  the raw CSV cell → parse-result step is the boundary of the embedding,
  so a raw row carries the parse results of its cells.
-/

namespace BIDash

/-- One row of the canonical (cleaned) table produced by `load_data`.
`order_date` is kept as the post-`to_datetime` column value (`none` = `NaT`);
`load_data` drops the `none` rows, which theorem `C9` establishes. -/
structure Order where
  order_id : String
  order_date : Option Nat
  order_value : ℚ
  delivery_time_minutes : Option ℚ
  order_status : String
  is_repeat_customer : Int
  city : String
  customer_id : String
deriving DecidableEq, Repr

/-- One row of the raw CSV after cell-level parsing: `order_date` and the
numeric cells are parse results (`none` when `pd.to_datetime` /
`pd.to_numeric` with `errors='coerce'` yields `NaT`/`NaN`). -/
structure RawOrder where
  order_id : String
  order_date : Option Nat
  order_value : Option ℚ
  delivery_time_minutes : Option ℚ
  order_status : String
  is_repeat_customer : Int
  city : String
  customer_id : String
deriving DecidableEq, Repr

/-- Embedding of `load_data` (src/app.py:34-47): `to_datetime` then `dropna` on
`order_date`; `to_numeric(...).fillna(0)` on `order_value`; `to_numeric`
(NaN kept) on `delivery_time_minutes`; `order_status` already a string;
`is_repeat_customer` synthesized as `0` when the column is absent
(`hasRepeatCol = false`). -/
def load_data (hasRepeatCol : Bool) (raw : List RawOrder) : List Order :=
  (raw.filter (fun r => r.order_date.isSome)).map fun r =>
    { order_id := r.order_id
      order_date := r.order_date
      order_value := r.order_value.getD 0
      delivery_time_minutes := r.delivery_time_minutes
      order_status := r.order_status
      is_repeat_customer := if hasRepeatCol then r.is_repeat_customer else 0
      city := r.city
      customer_id := r.customer_id }

/-- The timestamp of a row, in minutes since the epoch (post-`load_data`
rows always have `isSome order_date`; `getD` is only a totalization). -/
def tsOf (r : Order) : Nat := r.order_date.getD 0

/-- Embedding of `df['order_date'].dt.date`: the calendar-day number of a row. -/
def dateKey (r : Order) : Nat := tsOf r / 1440

/-- Embedding of `Series.nunique()`: number of distinct values in a column. -/
def nunique {α : Type} [DecidableEq α] (l : List α) : Nat := l.dedup.length

/-- Embedding of `Series.value_counts()`: one `(value, row count)` pair per distinct
value (pandas orders by descending count; no claim depends on the order). -/
def value_counts (l : List String) : List (String × Nat) :=
  l.dedup.map fun s => (s, l.count s)

/-- Embedding of `.get(key, default)` on the `value_counts` result. -/
def vcGet (vc : List (String × Nat)) (k : String) (d : Nat) : Nat :=
  match vc.find? (fun p => p.1 == k) with
  | some p => p.2
  | none => d

/-- The five KPI scalars returned by `compute_kpis`. -/
structure KPIs where
  total_revenue : ℚ
  total_orders : Nat
  aov : ℚ
  repeat_rate : ℚ
  cancellation_rate : ℚ
deriving DecidableEq, Repr

/-- Embedding of `compute_kpis` (src/app.py:56-79), line by line. -/
def compute_kpis (df : List Order) : KPIs :=
  let total_revenue : ℚ := (df.map Order.order_value).sum
  let total_orders : Nat := nunique (df.map Order.order_id)
  let aov : ℚ := if total_orders > 0 then total_revenue / (total_orders : ℚ) else 0
  let repeat_customers : Nat :=
    nunique ((df.filter (fun r => r.is_repeat_customer == 1)).map Order.customer_id)
  let unique_customers : Nat := nunique (df.map Order.customer_id)
  let repeat_rate : ℚ :=
    if unique_customers > 0 then ((repeat_customers : ℚ) / (unique_customers : ℚ)) * 100 else 0
  let cancelled : Nat := vcGet (value_counts (df.map Order.order_status)) "Cancelled" 0
  let cancellation_rate : ℚ :=
    if total_orders > 0 then ((cancelled : ℚ) / (total_orders : ℚ)) * 100 else 0
  { total_revenue := total_revenue
    total_orders := total_orders
    aov := aov
    repeat_rate := repeat_rate
    cancellation_rate := cancellation_rate }

/-- Aggregate of `fig_orders_volume_trend` (src/app.py:93-94): group by calendar day and
count rows (`order_id` is never null post-load, so pandas `count` is the
row count); one `(day, count)` pair per distinct day. -/
def orders_by_day (df : List Order) : List (Nat × Nat) :=
  (df.map dateKey).dedup.map fun d => (d, (df.filter (fun r => dateKey r == d)).length)

/-- The four optional filter inputs of `update_dashboard`
(src/app.py:192): the dates arrive as `YYYY-MM-DD` strings, modelled by
their day number; the dropdown selections as optional string lists
(Python `if x:` is false for both `None` and `[]`). -/
structure FilterParams where
  start_date : Option Nat
  end_date : Option Nat
  selected_cities : Option (List String)
  selected_statuses : Option (List String)
deriving DecidableEq, Repr

/-- Step `if start_date: dff = dff[dff['order_date'] >= pd.to_datetime(start_date)]`
(src/app.py:195-196); `pd.to_datetime` of the date string is midnight. -/
def applyStart (s : Option Nat) (df : List Order) : List Order :=
  match s with
  | none => df
  | some s0 => df.filter fun r => decide (s0 * 1440 ≤ tsOf r)

/-- Step `if end_date: dff = dff[dff['order_date'] <= pd.to_datetime(end_date)]`
(src/app.py:197-198). -/
def applyEnd (e : Option Nat) (df : List Order) : List Order :=
  match e with
  | none => df
  | some e0 => df.filter fun r => decide (tsOf r ≤ e0 * 1440)

/-- Step `if selected_cities: dff = dff[dff['city'].isin(selected_cities)]`
(src/app.py:199-200); `None` and `[]` are both falsy, so the filter is
skipped entirely for them. -/
def applyCities (sel : Option (List String)) (df : List Order) : List Order :=
  match sel with
  | none => df
  | some cs => if cs.isEmpty then df else df.filter fun r => cs.contains r.city

/-- Step `if selected_statuses: dff = dff[dff['order_status'].isin(selected_statuses)]`
(src/app.py:201-202). -/
def applyStatuses (sel : Option (List String)) (df : List Order) : List Order :=
  match sel with
  | none => df
  | some ss => if ss.isEmpty then df else df.filter fun r => ss.contains r.order_status

/-- The filter block of `update_dashboard` (src/app.py:194-202), in source
order: start, end, cities, statuses. -/
def applyFilters (p : FilterParams) (df : List Order) : List Order :=
  applyStatuses p.selected_statuses
    (applyCities p.selected_cities (applyEnd p.end_date (applyStart p.start_date df)))

/-- The four filter steps as an indexed family, for reordering statements. -/
def applyOne (p : FilterParams) : Fin 4 → List Order → List Order
  | 0 => applyStart p.start_date
  | 1 => applyEnd p.end_date
  | 2 => applyCities p.selected_cities
  | 3 => applyStatuses p.selected_statuses

/-- Apply the filter steps named by `ord`, left to right. -/
def applySeq (p : FilterParams) (ord : List (Fin 4)) (df : List Order) : List Order :=
  ord.foldl (fun acc i => applyOne p i acc) df

/-- The row-level predicate of each filter step (`true` on the skipped
branches), used to relate the steps to `List.filter`. -/
def predOf (p : FilterParams) : Fin 4 → Order → Bool
  | 0 => fun r => match p.start_date with
      | none => true
      | some s0 => decide (s0 * 1440 ≤ tsOf r)
  | 1 => fun r => match p.end_date with
      | none => true
      | some e0 => decide (tsOf r ≤ e0 * 1440)
  | 2 => fun r => match p.selected_cities with
      | none => true
      | some cs => if cs.isEmpty then true else cs.contains r.city
  | 3 => fun r => match p.selected_statuses with
      | none => true
      | some ss => if ss.isEmpty then true else ss.contains r.order_status

/-! Concrete rows used for counterexamples and witnesses. -/

/-- A representative cleaned row (midnight of day 0, Completed, Mumbai). -/
def sampleRow : Order :=
  { order_id := "O1"
    order_date := some 0
    order_value := 10
    delivery_time_minutes := some 30
    order_status := "Completed"
    is_repeat_customer := 0
    city := "Mumbai"
    customer_id := "C1" }

/-- Two rows sharing one `order_id` (an order split across rows). -/
def dupDf : List Order := [sampleRow, { sampleRow with order_value := 20 }]

/-- Three rows with pairwise-distinct `order_id` values on three days. -/
def df3 : List Order :=
  [sampleRow,
   { sampleRow with order_id := "O2", order_date := some 1440, order_value := 20,
                    city := "Delhi", customer_id := "C2", is_repeat_customer := 1 },
   { sampleRow with order_id := "O3", order_date := some 2880, order_value := 30,
                    order_status := "Cancelled", customer_id := "C3" }]

/-- A row at noon (minute 720) of day 0. -/
def noonRow : Order := { sampleRow with order_date := some 720 }

/-- A raw row whose `order_value` cell parses to a negative number. -/
def negRaw : RawOrder :=
  { order_id := "O9"
    order_date := some 0
    order_value := some (-5)
    delivery_time_minutes := none
    order_status := "Completed"
    is_repeat_customer := 0
    city := "Pune"
    customer_id := "C9" }

/-- A raw row with a nonnegative parsed `order_value` and an unparseable
`delivery_time_minutes`. -/
def posRaw : RawOrder := { negRaw with order_value := some 7 }

/-! Helper lemmas. -/

/-- Unfolding `compute_kpis` at the `total_revenue` field. -/
lemma compute_kpis_total_revenue (df : List Order) :
    (compute_kpis df).total_revenue = (df.map Order.order_value).sum := rfl

/-- Unfolding `compute_kpis` at the `total_orders` field. -/
lemma compute_kpis_total_orders (df : List Order) :
    (compute_kpis df).total_orders = nunique (df.map Order.order_id) := rfl

/-- Unfolding `compute_kpis` at the `aov` field. -/
lemma compute_kpis_aov (df : List Order) :
    (compute_kpis df).aov =
      if 0 < nunique (df.map Order.order_id) then
        (df.map Order.order_value).sum / (nunique (df.map Order.order_id) : ℚ)
      else 0 := rfl

/-- Unfolding `compute_kpis` at the `repeat_rate` field. -/
lemma compute_kpis_repeat_rate (df : List Order) :
    (compute_kpis df).repeat_rate =
      if 0 < nunique (df.map Order.customer_id) then
        ((nunique ((df.filter (fun r => r.is_repeat_customer == 1)).map Order.customer_id) : ℚ) /
            (nunique (df.map Order.customer_id) : ℚ)) * 100
      else 0 := rfl

/-- Unfolding `compute_kpis` at the `cancellation_rate` field. -/
lemma compute_kpis_cancellation_rate (df : List Order) :
    (compute_kpis df).cancellation_rate =
      if 0 < nunique (df.map Order.order_id) then
        ((vcGet (value_counts (df.map Order.order_status)) "Cancelled" 0 : ℚ) /
            (nunique (df.map Order.order_id) : ℚ)) * 100
      else 0 := rfl

/-- Searching with an equality test returns the key itself when present. -/
lemma find?_beq_self {l : List String} {k : String} (h : k ∈ l) :
    l.find? (fun s => s == k) = some k := by
  induction l with
  | nil => cases h
  | cons a t ih =>
    by_cases ha : (a == k) = true
    · rw [List.find?_cons_of_pos (p := fun s => s == k) _ ha]
      rw [eq_of_beq ha]
    · rw [List.find?_cons_of_neg (p := fun s => s == k) _ ha]
      rcases List.mem_cons.mp h with h1 | h1
      · exact absurd (by simp [h1]) ha
      · exact ih h1

/-- Looking up `k` in `value_counts` with default 0 counts the rows whose
value is `k`. -/
lemma vcGet_value_counts (l : List String) (k : String) :
    vcGet (value_counts l) k 0 = l.count k := by
  unfold vcGet value_counts
  rw [List.find?_map]
  have hcomp : ((fun p : String × Nat => p.1 == k) ∘ fun s => (s, l.count s)) =
      fun s => s == k := rfl
  rw [hcomp]
  by_cases h : k ∈ l
  · rw [find?_beq_self (List.mem_dedup.mpr h)]
    rfl
  · have hnone : List.find? (fun s => s == k) l.dedup = none := by
      rw [List.find?_eq_none]
      intro x hx hxk
      exact h (by rw [← eq_of_beq hxk]; exact List.mem_dedup.mp hx)
    rw [hnone, List.count_eq_zero.mpr h]
    rfl

/-- The per-day counts of `orders_by_day` sum to the row count of the view. -/
lemma sum_orders_by_day (df : List Order) :
    ((orders_by_day df).map Prod.snd).sum = df.length := by
  unfold orders_by_day
  rw [List.map_map]
  have h1 : (Prod.snd ∘ fun d => (d, (df.filter (fun r => dateKey r == d)).length)) =
      fun d => List.count d (df.map dateKey) := by
    funext d
    show (df.filter (fun r => dateKey r == d)).length = List.count d (df.map dateKey)
    rw [List.count_eq_countP, List.countP_map, List.countP_eq_length_filter]
    rfl
  rw [h1, List.sum_map_count_dedup_eq_length, List.length_map]

/-- Distinct repeat-flagged customers are among the distinct customers. -/
lemma repeat_le_unique (df : List Order) :
    nunique ((df.filter (fun r => r.is_repeat_customer == 1)).map Order.customer_id) ≤
      nunique (df.map Order.customer_id) := by
  unfold nunique
  rw [← List.card_toFinset, ← List.card_toFinset]
  apply Finset.card_le_card
  intro x hx
  rw [List.mem_toFinset] at hx ⊢
  rcases List.mem_map.mp hx with ⟨r, hr, rfl⟩
  exact List.mem_map.mpr ⟨r, (List.mem_filter.mp hr).1, rfl⟩

/-- Conjunction over a list only depends on the multiset of elements. -/
lemma all_congr_perm {α : Type} {l l' : List α} (h : l.Perm l') (f : α → Bool) :
    l.all f = l'.all f := by
  rw [Bool.eq_iff_iff, List.all_eq_true, List.all_eq_true]
  constructor <;> intro hall x hx
  · exact hall x (h.mem_iff.mpr hx)
  · exact hall x (h.mem_iff.mp hx)

/-- Each filter step is a `List.filter` by its row predicate. -/
lemma applyOne_eq_filter (p : FilterParams) (i : Fin 4) (df : List Order) :
    applyOne p i df = df.filter (predOf p i) := by
  fin_cases i
  · show applyStart p.start_date df = df.filter _
    cases hs : p.start_date with
    | none => simp [applyStart, predOf, hs, List.filter_true]
    | some s0 => simp [applyStart, predOf, hs]
  · show applyEnd p.end_date df = df.filter _
    cases he : p.end_date with
    | none => simp [applyEnd, predOf, he, List.filter_true]
    | some e0 => simp [applyEnd, predOf, he]
  · show applyCities p.selected_cities df = df.filter _
    cases hc : p.selected_cities with
    | none => simp [applyCities, predOf, hc, List.filter_true]
    | some cs =>
      by_cases hemp : cs.isEmpty
      · simp [applyCities, predOf, hc, hemp, List.filter_true]
      · simp [applyCities, predOf, hc, hemp]
  · show applyStatuses p.selected_statuses df = df.filter _
    cases hs : p.selected_statuses with
    | none => simp [applyStatuses, predOf, hs, List.filter_true]
    | some ss =>
      by_cases hemp : ss.isEmpty
      · simp [applyStatuses, predOf, hs, hemp, List.filter_true]
      · simp [applyStatuses, predOf, hs, hemp]

/-- A sequence of filter steps is one `List.filter` by the conjunction of
the predicates of the steps. -/
lemma applySeq_eq_filter (p : FilterParams) (ord : List (Fin 4)) (df : List Order) :
    applySeq p ord df = df.filter (fun r => ord.all (fun i => predOf p i r)) := by
  induction ord generalizing df with
  | nil => simp [applySeq, List.filter_true]
  | cons i t ih =>
    show applySeq p t (applyOne p i df) = _
    rw [applyOne_eq_filter, ih, List.filter_filter]
    congr 1
    funext r
    rw [List.all_cons, Bool.and_comm]

/-- The source-order filter chain is `applySeq` on `[0, 1, 2, 3]`. -/
lemma applyFilters_eq_applySeq (p : FilterParams) (df : List Order) :
    applyFilters p df = applySeq p [0, 1, 2, 3] df := rfl

/-- A filtered view is a sublist of its input table. -/
lemma applyFilters_sublist (p : FilterParams) (df : List Order) :
    (applyFilters p df).Sublist df := by
  rw [applyFilters_eq_applySeq, applySeq_eq_filter]
  exact List.filter_sublist df

/-! Claim theorems. -/

/-- C1 counterexample: on a view where one `order_id` spans two rows, the
per-day counts of `orders_by_day` sum to the row count 2, while the
`total_orders` KPI (distinct `order_id` count) is 1, so the claimed
equality fails for that filtered view. -/
theorem C1_counterexample :
    ¬ ((orders_by_day (applyFilters ⟨none, none, none, none⟩ dupDf)).map Prod.snd).sum =
        (compute_kpis (applyFilters ⟨none, none, none, none⟩ dupDf)).total_orders := by
  decide

/-- C1 amended: the per-day counts of `orders_by_day` always sum to the
number of rows of the view, and this equals the `total_orders` KPI
whenever the view's `order_id` values are pairwise distinct. -/
theorem C1_orders_by_day_sum (df : List Order) :
    ((orders_by_day df).map Prod.snd).sum = df.length ∧
      ((df.map Order.order_id).Nodup →
        ((orders_by_day df).map Prod.snd).sum = (compute_kpis df).total_orders) := by
  refine ⟨sum_orders_by_day df, fun h => ?_⟩
  rw [sum_orders_by_day df, compute_kpis_total_orders]
  unfold nunique
  rw [List.dedup_eq_self.mpr h, List.length_map]

/-- C1 witness: the amended claim at a concrete three-row view with
pairwise-distinct order ids. -/
theorem C1_witness :
    (df3.map Order.order_id).Nodup ∧
      ((orders_by_day df3).map Prod.snd).sum = (compute_kpis df3).total_orders :=
  ⟨by decide, (C1_orders_by_day_sum df3).2 (by decide)⟩

/-- C2: `cancellation_rate` equals the number of rows (not distinct
orders) whose `order_status` is `"Cancelled"`, divided by `total_orders`
(the distinct `order_id` count), times 100, and is 0 when that count is 0. -/
theorem C2_cancellation_rate_rows (df : List Order) :
    (compute_kpis df).cancellation_rate =
      if 0 < nunique (df.map Order.order_id) then
        ((df.countP (fun r => r.order_status == "Cancelled") : ℚ) /
            (nunique (df.map Order.order_id) : ℚ)) * 100
      else 0 := by
  rw [compute_kpis_cancellation_rate, vcGet_value_counts, List.count_eq_countP,
    List.countP_map]
  rfl

/-- C3 counterexample: with the end parameter set to day 0, a record at
noon of day 0 — whose `order_date` falls on the end date itself — is
removed by the date-range filter, because the code compares the full
timestamp against midnight of the end date. -/
theorem C3_counterexample :
    dateKey noonRow = 0 ∧
      applyFilters ⟨none, some 0, none, none⟩ [noonRow] = [] := by
  decide

/-- C3 amended: the date-range filter is inclusive at timestamp
granularity: a record survives exactly when midnight of the start day is
`≤` its timestamp (when a start is given) and its timestamp is `≤`
midnight of the end day (when an end is given); a record dated on the end
day is kept only if its time-of-day is midnight. -/
theorem C3_date_filter_inclusive (s e : Option Nat) (df : List Order) (r : Order) :
    r ∈ applyEnd e (applyStart s df) ↔
      r ∈ df ∧ (∀ s0, s = some s0 → s0 * 1440 ≤ tsOf r) ∧
        (∀ e0, e = some e0 → tsOf r ≤ e0 * 1440) := by
  cases s <;> cases e <;>
    simp [applyStart, applyEnd, List.mem_filter, and_assoc, and_comm]

/-- C4: when `total_orders > 0`, `aov * total_orders = total_revenue`
holds exactly; when `total_orders = 0`, both `aov` and
`cancellation_rate` are 0. -/
theorem C4_aov_relation (df : List Order) :
    (0 < (compute_kpis df).total_orders →
      (compute_kpis df).aov * ((compute_kpis df).total_orders : ℚ) =
        (compute_kpis df).total_revenue) ∧
      ((compute_kpis df).total_orders = 0 →
        (compute_kpis df).aov = 0 ∧ (compute_kpis df).cancellation_rate = 0) := by
  rw [compute_kpis_total_orders, compute_kpis_aov, compute_kpis_total_revenue,
    compute_kpis_cancellation_rate]
  constructor
  · intro h
    rw [if_pos h]
    have hn : ((nunique (df.map Order.order_id) : ℚ)) ≠ 0 := by
      exact_mod_cast Nat.pos_iff_ne_zero.mp h
    exact div_mul_cancel₀ _ hn
  · intro h
    rw [if_neg (by omega), if_neg (by omega)]
    exact ⟨rfl, rfl⟩

/-- C4 witness: the product relation at a one-row view and the zero case
at the empty view. -/
theorem C4_witness :
    (compute_kpis [sampleRow]).aov * ((compute_kpis [sampleRow]).total_orders : ℚ) =
        (compute_kpis [sampleRow]).total_revenue ∧
      (compute_kpis ([] : List Order)).aov = 0 ∧
        (compute_kpis ([] : List Order)).cancellation_rate = 0 :=
  ⟨(C4_aov_relation [sampleRow]).1 (by decide), (C4_aov_relation []).2 rfl⟩

/-- C5 counterexample: a raw row whose `order_value` cell parses to `-5`
survives cleaning with `order_value = -5 < 0`: negative values pass
through `load_data` untouched, so cleaned values are not always `≥ 0`. -/
theorem C5_counterexample :
    ¬ ∀ o ∈ load_data true [negRaw], 0 ≤ o.order_value := by
  decide

/-- C5 amended: after `load_data` every `order_value` is a (finite)
rational, `0` when the raw cell failed to parse; it is nonnegative
whenever every successfully parsed raw `order_value` is nonnegative
(negative parsed values pass through unchanged). -/
theorem C5_order_value_clean (hasRep : Bool) (raw : List RawOrder)
    (h : ∀ r ∈ raw, 0 ≤ r.order_value.getD 0) :
    ∀ o ∈ load_data hasRep raw, 0 ≤ o.order_value := by
  intro o ho
  unfold load_data at ho
  rcases List.mem_map.mp ho with ⟨r, hr, rfl⟩
  exact h r (List.mem_filter.mp hr).1

/-- C5 witness: the amended nonnegativity at a concrete one-row raw table. -/
theorem C5_witness :
    (∀ r ∈ [posRaw], 0 ≤ r.order_value.getD 0) ∧
      ∀ o ∈ load_data true [posRaw], 0 ≤ o.order_value :=
  ⟨by decide, C5_order_value_clean true [posRaw] (by decide)⟩

/-- C6: an empty filtered view yields all-zero KPIs, never an error. -/
theorem C6_empty_view_kpis (p : FilterParams) (df : List Order)
    (h : applyFilters p df = []) :
    compute_kpis (applyFilters p df) =
      { total_revenue := 0, total_orders := 0, aov := 0, repeat_rate := 0,
        cancellation_rate := 0 } := by
  rw [h]
  decide

/-- C6 witness: a city selection matching no row produces the empty view
and the all-zero KPI record. -/
theorem C6_witness :
    compute_kpis (applyFilters ⟨none, none, some ["Nowhere"], none⟩ [sampleRow]) =
      { total_revenue := 0, total_orders := 0, aov := 0, repeat_rate := 0,
        cancellation_rate := 0 } :=
  C6_empty_view_kpis ⟨none, none, some ["Nowhere"], none⟩ [sampleRow] (by decide)

/-- C7: for the city and status dimensions a record survives exactly when
its value lies in the supplied set, and an absent (`None`) or empty
selection imposes no constraint rather than excluding every record. -/
theorem C7_membership_filters (selC selS : Option (List String)) (df : List Order)
    (r : Order) :
    (r ∈ applyCities selC df ↔
      r ∈ df ∧ (selC = none ∨ selC = some [] ∨ r.city ∈ selC.getD [])) ∧
      (r ∈ applyStatuses selS df ↔
        r ∈ df ∧ (selS = none ∨ selS = some [] ∨ r.order_status ∈ selS.getD [])) := by
  constructor
  · cases selC with
    | none => simp [applyCities]
    | some cs =>
      cases cs with
      | nil => simp [applyCities]
      | cons c t => simp [applyCities, List.mem_filter, List.elem_iff, List.contains]
  · cases selS with
    | none => simp [applyStatuses]
    | some ss =>
      cases ss with
      | nil => simp [applyStatuses]
      | cons c t => simp [applyStatuses, List.mem_filter, List.elem_iff, List.contains]

/-- C8: the filtered view does not depend on the order in which the four
filter steps (start date, end date, city set, status set) are applied:
any permutation yields the view the source order produces. -/
theorem C8_filter_order_irrelevant (p : FilterParams) (df : List Order)
    (ord : List (Fin 4)) (h : ord.Perm [0, 1, 2, 3]) :
    applySeq p ord df = applyFilters p df := by
  rw [applyFilters_eq_applySeq, applySeq_eq_filter, applySeq_eq_filter]
  congr 1
  funext r
  exact all_congr_perm h _

/-- C8 witness: applying city, start, end, status in that order at
concrete parameters and a concrete view equals the source-order result. -/
theorem C8_witness :
    applySeq ⟨some 0, some 2, some ["Mumbai", "Delhi"], some ["Completed"]⟩
        [2, 0, 1, 3] df3 =
      applyFilters ⟨some 0, some 2, some ["Mumbai", "Delhi"], some ["Completed"]⟩ df3 :=
  C8_filter_order_irrelevant _ df3 [2, 0, 1, 3] (by decide)

/-- C9: every row of the canonical table produced by `load_data` has a
successfully parsed (non-`NaT`) `order_date` — raw rows with unparseable
dates are dropped — and hence every row of any filtered view does too. -/
theorem C9_valid_dates (hasRep : Bool) (raw : List RawOrder) (p : FilterParams) :
    (∀ o ∈ load_data hasRep raw, o.order_date.isSome) ∧
      ∀ o ∈ applyFilters p (load_data hasRep raw), o.order_date.isSome := by
  have h1 : ∀ o ∈ load_data hasRep raw, o.order_date.isSome := by
    intro o ho
    unfold load_data at ho
    rcases List.mem_map.mp ho with ⟨r, hr, rfl⟩
    exact (List.mem_filter.mp hr).2
  exact ⟨h1, fun o ho => h1 o ((applyFilters_sublist p _).subset ho)⟩

/-- C10: `repeat_rate` always lies in `[0, 100]`: the distinct repeat
customers are a subset of all distinct customers, and the rate defaults
to 0 when the view has no customers. -/
theorem C10_repeat_rate_bounds (df : List Order) :
    0 ≤ (compute_kpis df).repeat_rate ∧ (compute_kpis df).repeat_rate ≤ 100 := by
  rw [compute_kpis_repeat_rate]
  by_cases h : 0 < nunique (df.map Order.customer_id)
  · rw [if_pos h]
    have hle := repeat_le_unique df
    have hpos : (0 : ℚ) < (nunique (df.map Order.customer_id) : ℚ) := by
      exact_mod_cast h
    constructor
    · positivity
    · have h1 :
          (nunique ((df.filter (fun r => r.is_repeat_customer == 1)).map
              Order.customer_id) : ℚ) /
            (nunique (df.map Order.customer_id) : ℚ) ≤ 1 :=
        (div_le_one hpos).mpr (by exact_mod_cast hle)
      calc (nunique ((df.filter (fun r => r.is_repeat_customer == 1)).map
              Order.customer_id) : ℚ) /
            (nunique (df.map Order.customer_id) : ℚ) * 100
          ≤ (1 : ℚ) * 100 := mul_le_mul_of_nonneg_right h1 (by norm_num)
        _ = 100 := by norm_num
  · rw [if_neg h]
    norm_num

end BIDash
